import Mathlib

/-!
Verification of the notification dispatch and preference-resolution engine
(`notification/models.py`, `notification/views.py`) against its specification.

The Python code is shallowly embedded: Django ORM tables become Lean lists of
records, ORM `get`/`filter`/`create` become list operations, exceptions become
`Except`/`Option` results, and module-level mutable state (the active locale)
becomes explicit state threading through the `send` pipeline.
-/

set_option autoImplicit false

namespace Notification

/-- Embeds the `NoticeType` model (`models.py` lines 24-41): `label`,
`display`, `description` and the `default` sensitivity threshold. -/
structure NoticeType where
  label : String
  display : String
  description : String
  default : Int
deriving DecidableEq, Repr

/-- Embeds `NoticeType.objects.get(label=label)`: first stored notice type
with the given label, `none` standing for `NoticeType.DoesNotExist`.
(The spec's invariant makes labels unique, so first-match is the match.) -/
def lookupNoticeType (ntypes : List NoticeType) (label : String) : Option NoticeType :=
  ntypes.find? (fun nt => nt.label == label)

/-- Embeds one loaded channel backend as consumed by `models.py`: its dict key
`(medium_id, backend_label)`, its `spam_sensitivity`, its `can_send` gate
(keyed here by user id and notice-type label) and the outcome of `deliver`
for a given user id (`false` = `deliver` raises). -/
structure Backend where
  key : String × String
  spam_sensitivity : Int
  can_send : Nat → String → Bool
  deliver_ok : Nat → Bool

/-- Embeds `the `NOTICE_MEDIA_DEFAULTS`` construction (`models.py` lines 48-49):
the dict comprehension
`{key[0]: backend.spam_sensitivity for key, backend in NOTIFICATION_BACKENDS.items()}`
over the backends in dict iteration order. A Python dict is modelled
extensionally as a lookup function; a later binding for the same `key[0]`
overwrites an earlier one, exactly as in a dict comprehension. -/
def NOTICE_MEDIA_DEFAULTS (backends : List Backend) : String → Option Int :=
  backends.foldl
    (fun acc b => fun m => if m == b.key.1 then some b.spam_sensitivity else acc m)
    (fun _ => none)

/-- The sensitivity of the LAST backend in enumeration order whose
`medium_id` is `m` — what the dict comprehension actually keeps. -/
def lastSensitivity : List Backend → String → Option Int
  | [], _ => none
  | b :: tl, m =>
    match lastSensitivity tl m with
    | some v => some v
    | none => if m == b.key.1 then some b.spam_sensitivity else none

/-- Modelled from the spec: `mediumId → minimum spamSensitivity across
backends sharing that id` — the mapping §4.2 of the spec claims the registry
produces. Compared against `NOTICE_MEDIA_DEFAULTS` (the code's mapping). -/
def minSensitivity (backends : List Backend) (m : String) : Option Int :=
  match backends.filter (fun b => b.key.1 == m) with
  | [] => none
  | b :: tl => some (tl.foldl (fun acc b2 => min acc b2.spam_sensitivity) b.spam_sensitivity)

/-- Embeds the `NoticeSetting` model (`models.py` lines 85-99): one row of the
per-user, per-notice-type, per-medium preference table. The `notice_type`
foreign key is represented by the notice type's (unique) label. -/
structure NoticeSetting where
  user : Nat
  notice_type : String
  medium : String
  send : Bool
deriving DecidableEq, Repr

/-- Row predicate for `NoticeSetting.objects.get(user=..., notice_type=..., medium=...)`. -/
def settingMatches (user : Nat) (ntLabel medium : String) (s : NoticeSetting) : Bool :=
  s.user == user && s.notice_type == ntLabel && s.medium == medium

/-- Embeds `get_notification_setting` (`models.py` lines 102-113): return the
stored row if one exists; otherwise compute
`send = NOTICE_MEDIA_DEFAULTS[medium] <= notice_type.default`, create the row
and return it. The settings table is passed and returned explicitly; `none`
stands for the `KeyError` a medium absent from `NOTICE_MEDIA_DEFAULTS` would
raise. -/
def get_notification_setting (defaults : String → Option Int)
    (db : List NoticeSetting) (user : Nat) (nt : NoticeType) (medium : String) :
    Option (NoticeSetting × List NoticeSetting) :=
  match db.find? (settingMatches user nt.label medium) with
  | some s => some (s, db)
  | none =>
    match defaults medium with
    | none => none
    | some sens =>
      let s : NoticeSetting :=
        { user := user, notice_type := nt.label, medium := medium
          send := decide (sens ≤ nt.default) }
      some (s, db ++ [s])

/-- Embeds lines 50-53 of `models.py`: the loop
`for key in NOTIFICATION_BACKENDS.keys(): if key[1] == 'website': website = ...`.
When several keys have backend label `"website"` the last assignment wins,
hence the reverse search. `none` means no website backend is loaded. -/
def websiteOf (backends : List Backend) : Option Backend :=
  backends.reverse.find? (fun b => b.key.2 == "website")

/-- The exceptions the embedded `send` can propagate:
`NoticeType.DoesNotExist` from the label lookup, an exception escaping a
backend's `deliver`, or the `NameError` from the unbound module global
`website` (`models.py` line 219): `website` is assigned only when a backend
labeled `"website"` is loaded (lines 50-52), so with none loaded the first
recipient's `if website and ...` raises. -/
inductive SendErr where
  | noticeTypeMissing
  | deliverFailed
  | nameError
deriving DecidableEq, Repr

/-- The observable state threaded through the embedded `send` pipeline:
the process-wide active locale (`django.utils.translation`), the successful
`deliver(user, ...)` calls in order (user id paired with the backend's key),
the unsubscribe tokens minted (`signer.sign(user.pk)`, recorded by user pk),
and the exception currently propagating, if any. -/
structure SendState where
  locale : String
  events : List (Nat × (String × String))
  tokens : List Nat
  error : Option SendErr
deriving DecidableEq, Repr

/-- The environment a `send` call runs in: the stored notice types, the
loaded backends in `NOTIFICATION_BACKENDS.values()` order, each user's
notification language (`none` models `LanguageStoreNotAvailable`), and the
locale active when `send` is entered (`get_language()`). -/
structure SendEnv where
  noticeTypes : List NoticeType
  backends : List Backend
  langOf : Nat → Option String
  activeLocale : String

/-- One `backend.deliver(user, ...)` call: on success the delivery is
recorded; if the backend raises, the exception starts propagating. -/
def deliverTo (s : SendState) (b : Backend) (uid : Nat) : SendState :=
  if b.deliver_ok uid then { s with events := s.events ++ [(uid, b.key)] }
  else { s with error := some .deliverFailed }

/-- Embeds one iteration of the `for user in users:` loop of `send`
(`models.py` lines 196-239). A state already carrying an exception is
returned unchanged: in Python the exception has already escaped the loop.
Steps, in source order:
`try: activate(get_notification_language(user)) except LanguageStoreNotAvailable: pass`;
mint the signed unsubscribe token (`signer.sign(user.pk)`); then line 219
reads the module global `website` — when no backend labeled `"website"` was
loaded that name was never assigned and a `NameError` propagates, before any
`deliver` of this recipient; otherwise the website special case
(`if website and website.can_send(...): website.deliver(...)`, context
enrichment has no observable state here) runs, followed by
`for backend in NOTIFICATION_BACKENDS.values(): if backend.can_send(...) and backend != website: backend.deliver(...)`,
where `backend != website` compares against the bound website backend
(by key). No step after a raising `deliver` runs, since the source wraps
none of these steps in a handler. -/
def processUser (env : SendEnv) (label : String) (s : SendState) (uid : Nat) : SendState :=
  if s.error.isSome then s
  else
    let s1 := match env.langOf uid with
      | some l => { s with locale := l }
      | none => s
    let s2 := { s1 with tokens := s1.tokens ++ [uid] }
    match websiteOf env.backends with
    | none => { s2 with error := some .nameError }
    | some w =>
      let s3 := if w.can_send uid label then deliverTo s2 w uid else s2
      if s3.error.isSome then s3
      else
        env.backends.foldl
          (fun acc b =>
            if acc.error.isSome then acc
            else if b.can_send uid label && !(b.key == w.key) then deliverTo acc b uid
            else acc)
          s3

/-- Embeds `send(users, label, ...)` (`models.py` lines 179-242):
resolve the notice type (raising `DoesNotExist` when the label is unknown,
before any per-recipient work), remember `current_language = get_language()`,
process each recipient in order, and — only when the loop completes without
an exception — `activate(current_language)`. There is no `try/finally`
around the loop in the source, so a propagating exception skips the
restore. -/
def send (env : SendEnv) (users : List Nat) (label : String) : SendState :=
  match lookupNoticeType env.noticeTypes label with
  | none =>
    { locale := env.activeLocale, events := [], tokens := []
      error := some .noticeTypeMissing }
  | some _ =>
    let s0 : SendState :=
      { locale := env.activeLocale, events := [], tokens := [], error := none }
    let s := users.foldl (processUser env label) s0
    if s.error.isSome then s else { s with locale := env.activeLocale }

/-- A polymorphically referenced observed object, as seen through
`ContentType.objects.get_for_model(observed)` and `observed.id`. -/
structure Entity where
  content_type : String
  id : Nat
deriving DecidableEq, Repr

/-- An observer as the `observe`/`is_observing` functions see one: a user id
plus the result of `observer.is_anonymous()`. -/
structure Observer where
  id : Nat
  is_anonymous : Bool
deriving DecidableEq, Repr

/-- Embeds the `Observation` model (`models.py` lines 271-305): observer user,
notice-type label, polymorphic reference to the observed object, the `send`
flag (default `true`), and the `added` timestamp. `added` is declared with
`auto_now=True`, so the storage layer writes it on EVERY save (see
`observationSave`), not only at creation. -/
structure Obs where
  user : Nat
  notice_type : String
  content_type : String
  object_id : Nat
  send : Bool
  added : Nat
deriving DecidableEq, Repr

/-- Embeds a (re-)save of an `Observation` row at time `now`. Because the
`added` field is `DateTimeField(auto_now=True)`, Django sets it to the
current time on every save, so a save overwrites `added`. -/
def observationSave (o : Obs) (now : Nat) : Obs :=
  { o with added := now }

/-- The row predicate used by `ObservedItemManager.get_for` (`models.py`
lines 258-268): match on content type, object id, observer user and
notice-type label. -/
def obsMatches (ct : String) (oid uid : Nat) (label : String) (o : Obs) : Bool :=
  o.content_type == ct && o.object_id == oid && o.user == uid && o.notice_type == label

/-- Outcomes of a Django `objects.get(...)` call on the observation store. -/
inductive GetErr where
  | doesNotExist
  | multipleObjectsReturned
deriving DecidableEq, Repr

/-- Embeds `ObservedItemManager.get_for` (`models.py` lines 258-268): Django's
`get` returns the single matching row, raises `DoesNotExist` on zero matches
and `MultipleObjectsReturned` on two or more. -/
def get_for (obs : List Obs) (observed : Entity) (uid : Nat) (label : String) :
    Except GetErr Obs :=
  match obs.filter (obsMatches observed.content_type observed.id uid label) with
  | [] => .error .doesNotExist
  | [o] => .ok o
  | _ :: _ :: _ => .error .multipleObjectsReturned

/-- Embeds `is_observing` (`models.py` lines 354-366) for a single label
(the code wraps a bare label into a one-element list and loops): `False`
immediately for an anonymous observer; otherwise `DoesNotExist` from
`get_for` gives `False`, while a unique match, or `MultipleObjectsReturned`
(caught and passed over), leads to `True`. -/
def is_observing (obs : List Obs) (observed : Entity) (observer : Observer)
    (label : String) : Bool :=
  if observer.is_anonymous then false
  else
    match get_for obs observed observer.id label with
    | .error .doesNotExist => false
    | _ => true

/-- The new `Observation(user=observer, observed_object=observed,
notice_type=notice_type)` row that `observe` saves at time `now`:
`send` defaults to `true`, `added` is written by the save (`auto_now`). -/
def newObservation (observed : Entity) (observer : Observer) (label : String)
    (now : Nat) : Obs :=
  { user := observer.id, notice_type := label
    content_type := observed.content_type, object_id := observed.id
    send := true, added := now }

/-- Embeds `observe` (`models.py` lines 307-321) for a single label:
if `is_observing` is false, resolve the notice type
(`NoticeType.objects.get(label=label)`, `none` standing for `DoesNotExist`)
and save a new `Observation`. -/
def observe (ntypes : List NoticeType) (obs : List Obs) (observed : Entity)
    (observer : Observer) (label : String) (now : Nat) : Option (List Obs) :=
  if is_observing obs observed observer label then some obs
  else
    match lookupNoticeType ntypes label with
    | none => none
    | some _ => some (obs ++ [newObservation observed observer label now])

/-- Embeds `stop_observing` (`models.py` lines 324-334) for a single label:
`Observation.objects.get_for(observed, observer, label).delete()`, with only
`DoesNotExist` caught — `MultipleObjectsReturned` propagates to the caller.
`delete()` removes the fetched row. -/
def stop_observing (obs : List Obs) (observed : Entity) (uid : Nat)
    (label : String) : Except GetErr (List Obs) :=
  match get_for obs observed uid label with
  | .ok o => .ok (obs.erase o)
  | .error .doesNotExist => .ok obs
  | .error .multipleObjectsReturned => .error .multipleObjectsReturned

/-- A signed unsubscribe token as produced by `django.core.signing.Signer`:
the signed value together with its MAC. The process-wide signing function
(secret) is a parameter. -/
structure Signed where
  value : Nat
  mac : Nat
deriving DecidableEq, Repr

/-- Embeds `Signer().sign(user.pk)`. -/
def signerSign (secret : Nat → Nat) (v : Nat) : Signed :=
  { value := v, mac := secret v }

/-- Embeds `Signer().unsign(code)`: recover the signed value when the MAC
checks out; `none` stands for `BadSignature` (fails closed on tampering). -/
def signerUnsign (secret : Nat → Nat) (t : Signed) : Option Nat :=
  if t.mac == secret t.value then some t.value else none

/-- The `Http404` raised by the `unsubscribe` view on any lookup failure. -/
inductive ViewErr where
  | http404
deriving DecidableEq, Repr

/-- Embeds the `unsubscribe` view's state change (`views.py` lines 252-262):
`signer.unsign(code)` (a `BadSignature` → 404), `User.objects.get(id=...)`
(a missing user → 404), `[x for x in NOTICE_MEDIA if x[1] == medium][0][0]`
(no backend key whose label equals `medium` → `IndexError` → 404); on
success every `NoticeSetting` of that user whose medium equals the matched
medium id is saved with `send = False`. The template rendering that follows
in the view (lines 264-268) has no effect on the settings table and is not
modelled. -/
def unsubscribe (secret : Nat → Nat) (users : List Nat)
    (media : List (String × String)) (db : List NoticeSetting)
    (medium : String) (code : Signed) : Except ViewErr (List NoticeSetting) :=
  match signerUnsign secret code with
  | none => .error .http404
  | some uid =>
    if users.contains uid then
      match (media.filter (fun x => x.2 == medium)).head? with
      | none => .error .http404
      | some mk =>
        .ok (db.map (fun ns =>
          if ns.user == uid && ns.medium == mk.1 then { ns with send := false } else ns))
    else .error .http404

/-! ### Helper lemmas -/

/-- `find?` skips a prefix containing no match. -/
theorem find?_append_of_none {α : Type} (p : α → Bool) (l1 l2 : List α)
    (h : l1.find? p = none) : (l1 ++ l2).find? p = l2.find? p := by
  induction l1 with
  | nil => rfl
  | cons a tl ih =>
    rw [List.find?_cons] at h
    cases hpa : p a with
    | true => rw [hpa] at h; exact absurd h (by simp)
    | false =>
      rw [hpa] at h
      rw [List.cons_append, List.find?_cons, hpa]
      exact ih h

/-- Applying the dict-comprehension fold to a key reads back the last binding
written for that key, the earlier accumulator when there is none. -/
theorem mediaDefaults_foldl (bs : List Backend) :
    ∀ (acc : String → Option Int) (m : String),
      bs.foldl (fun acc b => fun m =>
          if m == b.key.1 then some b.spam_sensitivity else acc m) acc m
        = match lastSensitivity bs m with
          | some v => some v
          | none => acc m := by
  induction bs with
  | nil => intro acc m; rfl
  | cons b tl ih =>
    intro acc m
    rw [List.foldl_cons, ih]
    show _ = (match lastSensitivity (b :: tl) m with
      | some v => some v
      | none => acc m)
    rw [lastSensitivity]
    cases lastSensitivity tl m with
    | some v => rfl
    | none =>
      cases hm : (m == b.key.1) with
      | true => simp [hm]
      | false => simp [hm]

/-! ### C6: the per-medium default-sensitivity mapping -/

/-- Two backends sharing medium id `"e"`: sensitivity 1 loaded first,
sensitivity 5 loaded last. -/
def lowBackend : Backend :=
  { key := ("e", "smtp"), spam_sensitivity := 1
    can_send := fun _ _ => true, deliver_ok := fun _ => true }

/-- See `lowBackend`. -/
def highBackend : Backend :=
  { key := ("e", "ses"), spam_sensitivity := 5
    can_send := fun _ _ => true, deliver_ok := fun _ => true }

/-- C6 counterexample: with two backends sharing medium id `"e"` and spam
sensitivities 1 (enumerated first) and 5 (enumerated last), the code's
`NOTICE_MEDIA_DEFAULTS` maps `"e"` to 5, not to the minimum 1 the claim
states. -/
theorem mediaDefaults_not_min_cex :
    NOTICE_MEDIA_DEFAULTS [lowBackend, highBackend] "e" = some 5 ∧
    minSensitivity [lowBackend, highBackend] "e" = some 1 ∧
    NOTICE_MEDIA_DEFAULTS [lowBackend, highBackend] "e" ≠
      minSensitivity [lowBackend, highBackend] "e" := by
  refine ⟨rfl, rfl, ?_⟩
  decide

/-- C6 (amended): the registry's per-medium mapping `NOTICE_MEDIA_DEFAULTS`
maps each medium id to the `spam_sensitivity` of the LAST backend in
enumeration order sharing that medium id (a dict comprehension keeps the last
binding); this equals the minimum only when that last backend's sensitivity
is minimal, e.g. when at most one backend uses the medium id. -/
theorem mediaDefaults_eq_lastSensitivity (bs : List Backend) (m : String) :
    NOTICE_MEDIA_DEFAULTS bs m = lastSensitivity bs m := by
  rw [NOTICE_MEDIA_DEFAULTS, mediaDefaults_foldl]
  cases lastSensitivity bs m <;> rfl

/-! ### C1: lazy default resolution of notice settings -/

/-- C1: for a fresh (user, noticeType, medium) triple — no stored setting —
`get_notification_setting` returns a setting with
`send = (NOTICE_MEDIA_DEFAULTS[medium] ≤ noticeType.default)` and persists
exactly one matching row; a second call returns that same row and leaves the
table unchanged. -/
theorem get_notification_setting_fresh
    (defaults : String → Option Int) (db : List NoticeSetting)
    (u : Nat) (nt : NoticeType) (m : String) (sens : Int)
    (h0 : (db.filter (settingMatches u nt.label m)).length = 0)
    (hd : defaults m = some sens) :
    ∃ s1 db1,
      get_notification_setting defaults db u nt m = some (s1, db1) ∧
      s1.send = decide (sens ≤ nt.default) ∧
      (db1.filter (settingMatches u nt.label m)).length = 1 ∧
      get_notification_setting defaults db1 u nt m = some (s1, db1) := by
  have hnil : db.filter (settingMatches u nt.label m) = [] :=
    List.length_eq_zero.mp h0
  have hnone : db.find? (settingMatches u nt.label m) = none := by
    rw [List.find?_eq_none]
    intro x hx
    exact List.filter_eq_nil_iff.mp hnil x hx
  set s : NoticeSetting :=
    { user := u, notice_type := nt.label, medium := m
      send := decide (sens ≤ nt.default) } with hs
  have hmatch : settingMatches u nt.label m s = true := by
    simp [settingMatches, hs]
  refine ⟨s, db ++ [s], ?_, rfl, ?_, ?_⟩
  · rw [get_notification_setting, hnone, hd]
  · rw [List.filter_append, hnil, List.nil_append, List.filter_cons_of_pos hmatch]
    rfl
  · rw [get_notification_setting,
        find?_append_of_none _ db [s] hnone, List.find?_cons, hmatch]

/-- C1 witness: a concrete fresh triple: defaults map medium `"e"` to
sensitivity 1, the notice type's threshold is 2, the table is empty. -/
theorem get_notification_setting_fresh_witness :
    ∃ s1 db1,
      get_notification_setting (fun m => if m == "e" then some 1 else none)
          [] 7 ⟨"l", "d", "x", 2⟩ "e" = some (s1, db1) ∧
      s1.send = decide ((1 : Int) ≤ (⟨"l", "d", "x", 2⟩ : NoticeType).default) ∧
      (db1.filter (settingMatches 7 (⟨"l", "d", "x", 2⟩ : NoticeType).label "e")).length = 1 ∧
      get_notification_setting (fun m => if m == "e" then some 1 else none)
          db1 7 ⟨"l", "d", "x", 2⟩ "e" = some (s1, db1) :=
  get_notification_setting_fresh (fun m => if m == "e" then some 1 else none)
    [] 7 ⟨"l", "d", "x", 2⟩ "e" 1 (by decide) (by decide)

/-! ### C4: unknown label fails fast -/

/-- C4: `send` with a label no stored `NoticeType` carries raises
`DoesNotExist` before the recipient loop: no delivery happens, no unsubscribe
token is minted, and the locale is untouched (backend `can_send`/`deliver`
are never invoked, so no preference row can be created either). -/
theorem send_unknown_label (env : SendEnv) (users : List Nat) (label : String)
    (h : lookupNoticeType env.noticeTypes label = none) :
    send env users label =
      { locale := env.activeLocale, events := [], tokens := []
        error := some .noticeTypeMissing } := by
  rw [send, h]

/-- C4 witness: a registry holding only label `"a"`, a send to `[1, 2]` for
the unregistered label `"missing"`. -/
theorem send_unknown_label_witness :
    send { noticeTypes := [⟨"a", "b", "c", 2⟩], backends := []
           langOf := fun _ => none, activeLocale := "en" } [1, 2] "missing" =
      { locale := "en", events := [], tokens := []
        error := some .noticeTypeMissing } :=
  send_unknown_label
    { noticeTypes := [⟨"a", "b", "c", 2⟩], backends := []
      langOf := fun _ => none, activeLocale := "en" } [1, 2] "missing" (by decide)

/-! ### C2: no per-recipient, per-backend failure isolation -/

/-- A lone (non-website) email backend whose `deliver` raises exactly for
user 2. -/
def faultyBackend : Backend :=
  { key := ("e", "email"), spam_sensitivity := 1
    can_send := fun _ _ => true, deliver_ok := fun u => !(u == 2) }

/-- A second registered backend whose `deliver` always succeeds. -/
def okBackend : Backend :=
  { key := ("s", "sms"), spam_sensitivity := 1
    can_send := fun _ _ => true, deliver_ok := fun _ => true }

/-- The in-app feed backend, labeled `"website"` so the module global
`website` is bound (`models.py` lines 50-52); its `deliver` always
succeeds. -/
def websiteBackend : Backend :=
  { key := ("w", "website"), spam_sensitivity := 1
    can_send := fun _ _ => true, deliver_ok := fun _ => true }

/-- Environment for the fan-out counterexamples: one notice type `"l"`,
three registered backends (`websiteBackend`, `faultyBackend`, `okBackend`),
no per-user language, locale `"en"`. -/
def faultyEnv : SendEnv :=
  { noticeTypes := [⟨"l", "d", "x", 2⟩]
    backends := [websiteBackend, faultyBackend, okBackend]
    langOf := fun _ => none, activeLocale := "en" }

/-- C2 counterexample: sending to recipients `[1, 2, 3]` where only
`faultyBackend`'s `deliver` raises, and only for recipient 2: recipient 1
receives all three backends' deliveries and recipient 2 the website feed's,
then the email exception escapes the loop, so recipient 2's remaining
non-failing backend (`okBackend`, which succeeds for everyone) and
recipient 3 (for whom all backends would succeed) receive nothing —
contradicting the claimed per-recipient, per-backend isolation. -/
theorem send_no_isolation_cex :
    (send faultyEnv [1, 2, 3] "l").events =
      [(1, ("w", "website")), (1, ("e", "email")), (1, ("s", "sms")),
        (2, ("w", "website"))] ∧
    ¬ ((2, ("s", "sms")) ∈ (send faultyEnv [1, 2, 3] "l").events) ∧
    ¬ ((3, ("w", "website")) ∈ (send faultyEnv [1, 2, 3] "l").events) ∧
    ¬ ((3, ("e", "email")) ∈ (send faultyEnv [1, 2, 3] "l").events) ∧
    ¬ ((3, ("s", "sms")) ∈ (send faultyEnv [1, 2, 3] "l").events) ∧
    (send faultyEnv [1, 2, 3] "l").error = some .deliverFailed := by
  refine ⟨by decide, by decide, by decide, by decide, by decide, by decide⟩

/-- A state already carrying a propagating exception passes through the
recipient loop body unchanged. -/
theorem processUser_of_error (env : SendEnv) (label : String) (s : SendState)
    (u : Nat) (h : s.error.isSome) : processUser env label s u = s := by
  rw [processUser, if_pos h]

/-- A state already carrying a propagating exception passes through the whole
recipient loop unchanged. -/
theorem foldl_processUser_of_error (env : SendEnv) (label : String)
    (us : List Nat) (s : SendState) (h : s.error.isSome) :
    us.foldl (processUser env label) s = s := by
  induction us with
  | nil => rfl
  | cons u tl ih => rw [List.foldl_cons, processUser_of_error env label s u h]; exact ih

/-- C2 (amended): there is no per-recipient or per-backend failure isolation:
a backend `deliver` that raises propagates out of `send`. Deliveries already
performed are kept, but once the exception is raised no further backend of
that recipient and no later recipient is processed — extending the recipient
list beyond the failure point changes nothing in the outcome. -/
theorem send_error_halts (env : SendEnv) (us1 us2 : List Nat) (label : String)
    (h : (send env us1 label).error.isSome) :
    send env (us1 ++ us2) label = send env us1 label := by
  cases hl : lookupNoticeType env.noticeTypes label with
  | none => rw [send, hl, send, hl]
  | some nt =>
    simp only [send, hl] at h ⊢
    set s0 : SendState :=
      { locale := env.activeLocale, events := [], tokens := [], error := none } with hs0
    set s1 := us1.foldl (processUser env label) s0 with hs1
    by_cases herr : s1.error.isSome
    · rw [List.foldl_append, ← hs1,
          foldl_processUser_of_error env label us2 s1 herr]
    · rw [if_neg herr] at h
      simp only [Option.isSome] at h
      exact absurd h herr

/-- C2 witness for `send_error_halts`: with the failing recipient 2 in the
first segment, appending recipient 3 leaves the outcome unchanged. -/
theorem send_error_halts_witness :
    (send faultyEnv [1, 2] "l").error.isSome = true ∧
    send faultyEnv ([1, 2] ++ [3]) "l" = send faultyEnv [1, 2] "l" :=
  ⟨by decide, send_error_halts faultyEnv [1, 2] [3] "l" (by decide)⟩

/-! ### C3: locale restoration -/

/-- Environment whose single user 1 has notification language `"fr"`; the
website feed backend delivers fine, but the email backend raises on every
delivery. -/
def localeFaultEnv : SendEnv :=
  { noticeTypes := [⟨"l", "d", "x", 2⟩]
    backends := [websiteBackend,
                 { key := ("e", "email"), spam_sensitivity := 1
                   can_send := fun _ _ => true, deliver_ok := fun _ => false }]
    langOf := fun _ => some "fr", activeLocale := "en" }

/-- C3 counterexample: when a backend delivery raises, `send` aborts without
executing the final `activate(current_language)` (no `try/finally` in the
source), leaving the recipient's locale `"fr"` active instead of restoring
the caller's `"en"`. -/
theorem send_locale_not_restored_cex :
    (send localeFaultEnv [1] "l").locale = "fr" ∧
    localeFaultEnv.activeLocale = "en" ∧
    (send localeFaultEnv [1] "l").locale ≠ localeFaultEnv.activeLocale ∧
    (send localeFaultEnv [1] "l").error = some .deliverFailed := by
  refine ⟨by decide, by decide, by decide, by decide⟩

/-- C3 (amended): the pre-call locale is restored whenever `send` completes
without a propagating exception — in particular a failed per-recipient
language lookup (`LanguageStoreNotAvailable`) is caught and never prevents
restoration — but a raising backend delivery aborts `send` before the
restore. -/
theorem send_restores_locale_on_success (env : SendEnv) (users : List Nat)
    (label : String) (h : (send env users label).error = none) :
    (send env users label).locale = env.activeLocale := by
  cases hl : lookupNoticeType env.noticeTypes label with
  | none => rw [send, hl] at h; exact absurd h (by simp)
  | some nt =>
    simp only [send, hl] at h ⊢
    set s0 : SendState :=
      { locale := env.activeLocale, events := [], tokens := [], error := none } with hs0
    set s1 := users.foldl (processUser env label) s0 with hs1
    by_cases herr : s1.error.isSome
    · rw [if_pos herr] at h
      rw [h] at herr
      exact absurd herr (by simp)
    · rw [if_neg herr]

/-- Environment for the C3 witness: website feed and email backends, both
delivering successfully; user 1 has notification language `"fr"`, user 2 has
no language store entry. -/
def restoreEnv : SendEnv :=
  { noticeTypes := [⟨"l", "d", "x", 2⟩]
    backends := [websiteBackend,
                 { key := ("e", "email"), spam_sensitivity := 1
                   can_send := fun _ _ => true, deliver_ok := fun _ => true }]
    langOf := fun u => if u == 1 then some "fr" else none
    activeLocale := "en" }

/-- C3 witness for `send_restores_locale_on_success`: user 1 switches the
locale to `"fr"`, user 2 has no language store (the exception is caught), all
deliveries succeed; the final locale is the caller's `"en"`. -/
theorem send_restores_locale_on_success_witness :
    (send restoreEnv [1, 2] "l").error = none ∧
    (send restoreEnv [1, 2] "l").locale = restoreEnv.activeLocale :=
  ⟨by decide, send_restores_locale_on_success restoreEnv [1, 2] "l" (by decide)⟩

/-! ### C7, C10: observe idempotence and the anonymous-observer hole -/

/-- A one-type registry, an observed post and observers, shared by the
observation examples. -/
def obsNtypes : List NoticeType := [⟨"l", "d", "x", 2⟩]

/-- See `obsNtypes`. -/
def obsEnt : Entity := { content_type := "post", id := 3 }

/-- C7: the new observation created by `observe` matches `get_for`'s row
predicate. -/
theorem newObservation_matches (observed : Entity) (observer : Observer)
    (label : String) (now : Nat) :
    obsMatches observed.content_type observed.id observer.id label
      (newObservation observed observer label now) = true := by
  simp [obsMatches, newObservation]

/-- C7 counterexample: for an anonymous observer the `is_observing` guard is
always false, so two `observe` calls on an initially empty store create TWO
matching Observations, not the exactly-one the claim states for every
observer. -/
theorem observe_anonymous_duplicates_cex :
    ((observe obsNtypes [] obsEnt ⟨7, true⟩ "l" 1).bind
        (fun obs1 => observe obsNtypes obs1 obsEnt ⟨7, true⟩ "l" 2)).map
      (fun obs2 => (obs2.filter (obsMatches "post" 3 7 "l")).length) = some 2 := by
  decide

/-- C7 (amended): `observe` is idempotent per label for AUTHENTICATED
(non-anonymous) observers: starting from a store with no matching
Observation, with the label registered, the first call creates exactly one
matching Observation, `is_observing` is true after it, and a second call
returns the store unchanged. (For anonymous observers the guard never fires
and every call creates a new row.) -/
theorem observe_idempotent_authenticated
    (ntypes : List NoticeType) (obs : List Obs) (observed : Entity)
    (observer : Observer) (label : String) (nt : NoticeType) (t1 t2 : Nat)
    (hanon : observer.is_anonymous = false)
    (hfresh : (obs.filter
        (obsMatches observed.content_type observed.id observer.id label)).length = 0)
    (hnt : lookupNoticeType ntypes label = some nt) :
    ∃ obs1,
      observe ntypes obs observed observer label t1 = some obs1 ∧
      (obs1.filter
        (obsMatches observed.content_type observed.id observer.id label)).length = 1 ∧
      is_observing obs1 observed observer label = true ∧
      observe ntypes obs1 observed observer label t2 = some obs1 := by
  have hnil : obs.filter
      (obsMatches observed.content_type observed.id observer.id label) = [] :=
    List.length_eq_zero.mp hfresh
  have hnotobs : is_observing obs observed observer label = false := by
    simp [is_observing, get_for, hanon, hnil]
  have hfilter1 : (obs ++ [newObservation observed observer label t1]).filter
      (obsMatches observed.content_type observed.id observer.id label) =
      [newObservation observed observer label t1] := by
    rw [List.filter_append, hnil, List.nil_append,
        List.filter_cons_of_pos (newObservation_matches observed observer label t1),
        List.filter_nil]
  have hobs1 : is_observing (obs ++ [newObservation observed observer label t1])
      observed observer label = true := by
    simp [is_observing, get_for, hanon, hfilter1]
  refine ⟨obs ++ [newObservation observed observer label t1], ?_, ?_, hobs1, ?_⟩
  · rw [observe, hnotobs, if_neg (by simp), hnt]
  · rw [hfilter1]; rfl
  · rw [observe, hobs1, if_pos rfl]

/-- C7 witness: authenticated observer 7 on an empty store with label `"l"`
registered. -/
theorem observe_idempotent_authenticated_witness :
    ∃ obs1,
      observe obsNtypes [] obsEnt ⟨7, false⟩ "l" 1 = some obs1 ∧
      (obs1.filter (obsMatches obsEnt.content_type obsEnt.id
          (⟨7, false⟩ : Observer).id "l")).length = 1 ∧
      is_observing obs1 obsEnt ⟨7, false⟩ "l" = true ∧
      observe obsNtypes obs1 obsEnt ⟨7, false⟩ "l" 2 = some obs1 :=
  observe_idempotent_authenticated obsNtypes [] obsEnt ⟨7, false⟩ "l"
    ⟨"l", "d", "x", 2⟩ 1 2 rfl (by decide) (by decide)

/-- C10: for an anonymous observer `is_observing` is false regardless of the
stored Observations, and hence `observe` (with the label registered) appends
a fresh Observation on every call — the idempotence guard never fires. -/
theorem anonymous_observe_always_creates
    (ntypes : List NoticeType) (obs : List Obs) (observed : Entity)
    (observer : Observer) (label : String) (nt : NoticeType) (now : Nat)
    (hanon : observer.is_anonymous = true)
    (hnt : lookupNoticeType ntypes label = some nt) :
    is_observing obs observed observer label = false ∧
    observe ntypes obs observed observer label now =
      some (obs ++ [newObservation observed observer label now]) := by
  have hfalse : is_observing obs observed observer label = false := by
    rw [is_observing, if_pos (by simp [hanon])]
  refine ⟨hfalse, ?_⟩
  rw [observe, hfalse, if_neg (by simp), hnt]

/-- C10 witness: the store already holds a matching Observation for user 7,
yet for the anonymous observer 7 `is_observing` is still false and `observe`
appends a second row. -/
theorem anonymous_observe_always_creates_witness :
    is_observing [newObservation obsEnt ⟨7, true⟩ "l" 0] obsEnt ⟨7, true⟩ "l" = false ∧
    observe obsNtypes [newObservation obsEnt ⟨7, true⟩ "l" 0] obsEnt ⟨7, true⟩ "l" 5 =
      some ([newObservation obsEnt ⟨7, true⟩ "l" 0] ++
        [newObservation obsEnt ⟨7, true⟩ "l" 5]) :=
  anonymous_observe_always_creates obsNtypes [newObservation obsEnt ⟨7, true⟩ "l" 0]
    obsEnt ⟨7, true⟩ "l" ⟨"l", "d", "x", 2⟩ 5 rfl (by decide)

/-! ### C8: stop_observing -/

/-- Erasing the sole element a filter keeps empties the filter. -/
theorem filter_erase_of_filter_singleton {α : Type} [DecidableEq α]
    (p : α → Bool) : ∀ (l : List α) (o : α),
    l.filter p = [o] → (l.erase o).filter p = [] := by
  intro l
  induction l with
  | nil => intro o h; exact absurd h (by simp)
  | cons a tl ih =>
    intro o h
    by_cases hpa : p a
    · rw [List.filter_cons_of_pos hpa] at h
      obtain ⟨rfl, htl⟩ : a = o ∧ tl.filter p = [] := by
        constructor
        · exact (List.cons_eq_cons.mp h).1
        · exact (List.cons_eq_cons.mp h).2
      rw [List.erase_cons_head]
      exact htl
    · rw [List.filter_cons_of_neg hpa] at h
      have hpo : p o = true := by
        have hmem : o ∈ tl.filter p := by rw [h]; exact List.mem_singleton.mpr rfl
        exact (List.mem_filter.mp hmem).2
      have hao : ¬(a == o) = true := by
        intro he
        exact hpa (by rw [eq_of_beq he]; exact hpo)
      rw [List.erase_cons_tail hao, List.filter_cons_of_neg hpa]
      exact ih o h

/-- C8 counterexample: with two stored Observations matching
(user 7, label `"l"`, post 3), `stop_observing` raises
`MultipleObjectsReturned` — the uncaught exception from Django's `get` —
instead of returning normally, so the claimed behavior does not hold in
states where more than one Observation matches. -/
theorem stop_observing_duplicates_cex :
    stop_observing [⟨7, "l", "post", 3, true, 1⟩, ⟨7, "l", "post", 3, true, 2⟩]
        ⟨"post", 3⟩ 7 "l" = .error .multipleObjectsReturned := by
  rfl

/-- C8 (amended): `stop_observing` deletes the unique matching Observation
when exactly one exists (leaving no matching row), and returns normally when
none exists (absence is not an error); but in a state where more than one
Observation matches, the underlying `get` raises `MultipleObjectsReturned`,
which `stop_observing` does not catch. -/
theorem stop_observing_cases (obs : List Obs) (observed : Entity) (uid : Nat)
    (label : String) :
    (∀ o, obs.filter (obsMatches observed.content_type observed.id uid label) = [o] →
      stop_observing obs observed uid label = .ok (obs.erase o) ∧
      ((obs.erase o).filter
        (obsMatches observed.content_type observed.id uid label)).length = 0) ∧
    (obs.filter (obsMatches observed.content_type observed.id uid label) = [] →
      stop_observing obs observed uid label = .ok obs) ∧
    (2 ≤ (obs.filter (obsMatches observed.content_type observed.id uid label)).length →
      stop_observing obs observed uid label = .error .multipleObjectsReturned) := by
  refine ⟨?_, ?_, ?_⟩
  · intro o hone
    constructor
    · rw [stop_observing]
      simp [get_for, hone]
    · rw [filter_erase_of_filter_singleton _ obs o hone]
      rfl
  · intro hnone
    rw [stop_observing]
    simp [get_for, hnone]
  · intro htwo
    rw [stop_observing]
    cases hf : obs.filter (obsMatches observed.content_type observed.id uid label) with
    | nil => rw [hf] at htwo; exact absurd htwo (by simp)
    | cons o1 tl =>
      cases tl with
      | nil => rw [hf] at htwo; exact absurd htwo (by simp)
      | cons o2 tl2 => simp [get_for, hf]

/-- C8 witness: one matching Observation is deleted (no matching row
remains), and on the empty store the call returns normally. -/
theorem stop_observing_cases_witness :
    (stop_observing [⟨7, "l", "post", 3, true, 1⟩] ⟨"post", 3⟩ 7 "l" =
        .ok ([⟨7, "l", "post", 3, true, 1⟩].erase ⟨7, "l", "post", 3, true, 1⟩) ∧
      (([⟨7, "l", "post", 3, true, 1⟩].erase
          (⟨7, "l", "post", 3, true, 1⟩ : Obs)).filter
        (obsMatches "post" 3 7 "l")).length = 0) ∧
    stop_observing [] ⟨"post", 3⟩ 7 "l" = .ok [] :=
  ⟨(stop_observing_cases [⟨7, "l", "post", 3, true, 1⟩] ⟨"post", 3⟩ 7 "l").1
      ⟨7, "l", "post", 3, true, 1⟩ (by decide),
   (stop_observing_cases [] ⟨"post", 3⟩ 7 "l").2.1 (by decide)⟩

/-! ### C9: the `added` timestamp under `auto_now` -/

/-- C9: the `added` field is declared `auto_now=True`, so the storage layer
overwrites it on EVERY save: an Observation created (saved) at time 1 and
saved again at time 9 ends with `added = 9`, contradicting "set at creation
and never changed afterwards" (the intent — and the spec's wording — is
`auto_now_add` semantics). -/
theorem observation_added_overwritten_on_resave :
    (newObservation ⟨"post", 3⟩ ⟨5, false⟩ "l" 1).added = 1 ∧
    (observationSave (newObservation ⟨"post", 3⟩ ⟨5, false⟩ "l" 1) 9).added = 9 := by
  decide

/-! ### C5: the unsubscribe boundary -/

/-- C5: `unsubscribe` fails with `Http404` when token verification fails,
when the recovered user no longer exists, or when the medium string matches
no backend key's label; on success it saves `send = false` on every
`NoticeSetting` of that user whose medium is the matched medium id. -/
theorem unsubscribe_spec (secret : Nat → Nat) (users : List Nat)
    (media : List (String × String)) (db : List NoticeSetting)
    (medium : String) (code : Signed) :
    (signerUnsign secret code = none →
      unsubscribe secret users media db medium code = .error .http404) ∧
    (∀ uid, signerUnsign secret code = some uid → users.contains uid = false →
      unsubscribe secret users media db medium code = .error .http404) ∧
    (∀ uid, signerUnsign secret code = some uid → users.contains uid = true →
      (media.filter (fun x => x.2 == medium)).head? = none →
      unsubscribe secret users media db medium code = .error .http404) ∧
    (∀ uid mk, signerUnsign secret code = some uid → users.contains uid = true →
      (media.filter (fun x => x.2 == medium)).head? = some mk →
      unsubscribe secret users media db medium code =
        .ok (db.map (fun ns =>
          if ns.user == uid && ns.medium == mk.1 then { ns with send := false } else ns)) ∧
      ∀ ns ∈ db.map (fun ns =>
          if ns.user == uid && ns.medium == mk.1 then { ns with send := false } else ns),
        ns.user = uid → ns.medium = mk.1 → ns.send = false) := by
  refine ⟨?_, ?_, ?_, ?_⟩
  · intro hbad
    rw [unsubscribe, hbad]
  · intro uid hok hmiss
    simp only [unsubscribe, hok]
    rw [if_neg (by rw [hmiss]; exact Bool.false_ne_true)]
  · intro uid hok hmem hmedia
    simp only [unsubscribe, hok]
    rw [if_pos hmem, hmedia]
  · intro uid mk hok hmem hmedia
    constructor
    · simp only [unsubscribe, hok]
      rw [if_pos hmem, hmedia]
    · intro ns hns hu hm
      obtain ⟨a, _, rfl⟩ := List.mem_map.mp hns
      by_cases hcond : (a.user == uid && a.medium == mk.1) = true
      · simp [hcond]
      · rw [if_neg hcond] at hu hm ⊢
        exact absurd (by simp [hu, hm]) hcond

/-- C5 witness: user 4's token (MAC key `2·v + 1`), medium string `"email"`
matching the backend key `("e", "email")`; the setting of user 4 on medium
`"e"` flips to `send = false`, user 9's row is untouched. -/
theorem unsubscribe_spec_witness :
    unsubscribe (fun v => 2 * v + 1) [4] [("e", "email")]
        [⟨4, "l", "e", true⟩, ⟨9, "l", "e", true⟩] "email" ⟨4, 9⟩ =
      .ok ([⟨4, "l", "e", true⟩, ⟨9, "l", "e", true⟩].map (fun ns =>
        if ns.user == 4 && ns.medium == "e" then { ns with send := false } else ns)) ∧
    ∀ ns ∈ ([⟨4, "l", "e", true⟩, ⟨9, "l", "e", true⟩] : List NoticeSetting).map
        (fun ns => if ns.user == 4 && ns.medium == "e"
          then { ns with send := false } else ns),
      ns.user = 4 → ns.medium = "e" → ns.send = false :=
  (unsubscribe_spec (fun v => 2 * v + 1) [4] [("e", "email")]
      [⟨4, "l", "e", true⟩, ⟨9, "l", "e", true⟩] "email" ⟨4, 9⟩).2.2.2
    4 ("e", "email") (by decide) (by decide) (by decide)

end Notification
